import Mathlib

/-!
Verification of the mini-csrf middleware (stateless HMAC-based CSRF
protection for Express).  The definitions below are a shallow embedding of
the JavaScript source: JavaScript strings become Lean `String`s,
`charCodeAt` becomes the character code with 0 for out-of-range indices,
absent/`undefined` values become `Option`, the Node `crypto` HMAC primitive
and the JavaScript `Number()` conversion — both external to the repository —
become parameters (`JsPrims`), and the middleware's continuation-passing
style is kept explicit.
-/

namespace MiniCsrf

/-- `String(x || "")`: a JavaScript string argument that may be absent or
`null`/`undefined` is normalised to the empty string (an empty string is
itself falsy, so it maps to itself). -/
def normStr : Option String → String
  | none => ""
  | some s => s

/-- `i < s.length ? s.charCodeAt(i) : 0` from `constantTimeEquals`. -/
def codeAt (s : String) (i : Nat) : Nat :=
  match s.data.get? i with
  | some c => c.toNat
  | none => 0

/-- The accumulator loop of `constantTimeEquals`:
`for (i = 0; i < n; i++) result |= charA ^ charB`. -/
def ctFold (a b : String) (n : Nat) (init : Nat) : Nat :=
  (List.range n).foldl (fun r i => r ||| (codeAt a i ^^^ codeAt b i)) init

/-- `constantTimeEquals(a, b)` from mini-csrf: XOR of the lengths seeds the
accumulator, every position up to the longer length ORs in the XOR of the
character codes (0 past the end), and the result is the test against 0. -/
def constantTimeEquals (a b : Option String) : Bool :=
  let strA := normStr a
  let strB := normStr b
  let result := strA.length ^^^ strB.length
  let maxLength := max strA.length strB.length
  ctFold strA strB maxLength result == 0

theorem nat_or_eq_zero_iff (m n : Nat) : m ||| n = 0 ↔ m = 0 ∧ n = 0 := by
  constructor
  · intro h
    have hm : ∀ k, m.testBit k = false := by
      intro k
      have := congrArg (fun x => Nat.testBit x k) h
      simp [Nat.testBit_lor] at this
      exact this.1
    have hn : ∀ k, n.testBit k = false := by
      intro k
      have := congrArg (fun x => Nat.testBit x k) h
      simp [Nat.testBit_lor] at this
      exact this.2
    exact ⟨Nat.eq_of_testBit_eq (fun k => by simp [hm k]),
           Nat.eq_of_testBit_eq (fun k => by simp [hn k])⟩
  · rintro ⟨rfl, rfl⟩; rfl

theorem ctFold_succ (a b : String) (n init : Nat) :
    ctFold a b (n + 1) init = ctFold a b n init ||| (codeAt a n ^^^ codeAt b n) := by
  simp [ctFold, List.range_succ]

theorem ctFold_eq_zero_iff (a b : String) (n init : Nat) :
    ctFold a b n init = 0 ↔ init = 0 ∧ ∀ i < n, codeAt a i = codeAt b i := by
  induction n with
  | zero => simp [ctFold]
  | succ n ih =>
    rw [ctFold_succ, nat_or_eq_zero_iff, ih, Nat.xor_eq_zero]
    constructor
    · rintro ⟨⟨h0, hall⟩, hn⟩
      refine ⟨h0, fun i hi => ?_⟩
      rcases Nat.lt_succ_iff_lt_or_eq.mp hi with h | rfl
      · exact hall i h
      · exact hn
    · rintro ⟨h0, hall⟩
      exact ⟨⟨h0, fun i hi => hall i (Nat.lt_succ_of_lt hi)⟩, hall n (Nat.lt_succ_self n)⟩

theorem constantTimeEquals_true_iff (a b : Option String) :
    constantTimeEquals a b = true ↔
      (normStr a).length = (normStr b).length ∧
        ∀ i < max (normStr a).length (normStr b).length,
          codeAt (normStr a) i = codeAt (normStr b) i := by
  unfold constantTimeEquals
  rw [beq_iff_eq, ctFold_eq_zero_iff, Nat.xor_eq_zero]

theorem codeAt_out_of_range (s : String) (i : Nat) (h : s.length ≤ i) : codeAt s i = 0 := by
  unfold codeAt
  rw [List.get?_eq_none.mpr h]

theorem codeAt_lt (s : String) (i : Nat) (h : i < s.data.length) :
    codeAt s i = (s.data.get ⟨i, h⟩).toNat := by
  unfold codeAt
  rw [List.get?_eq_get h]

theorem constantTimeEquals_refl (s : String) :
    constantTimeEquals (some s) (some s) = true := by
  rw [constantTimeEquals_true_iff]
  exact ⟨rfl, fun i _ => rfl⟩

theorem char_toNat_injective (c d : Char) (h : c.toNat = d.toNat) : c = d := by
  apply Char.ext
  apply UInt32.ext
  exact h

theorem constantTimeEquals_eq_iff (a b : String) :
    constantTimeEquals (some a) (some b) = true ↔ a = b := by
  rw [constantTimeEquals_true_iff]
  constructor
  · rintro ⟨hlen, hcode⟩
    have hdata : a.data = b.data := by
      apply List.ext_get hlen
      intro i h1 h2
      apply char_toNat_injective
      have hi : i < max (normStr (some a)).length (normStr (some b)).length :=
        lt_of_lt_of_le h1 (le_max_left _ _)
      have hc := hcode i hi
      rw [show normStr (some a) = a from rfl, show normStr (some b) = b from rfl,
        codeAt_lt a i h1, codeAt_lt b i h2] at hc
      exact hc
    exact String.ext hdata
  · rintro rfl
    exact ⟨rfl, fun i _ => rfl⟩

/-- C4: `constantTimeEquals`, after normalising absent/null inputs to the
empty string, returns true iff the two strings have equal length and
identical character codes at every position (up to the longer length); it
returns true for equal strings and false for any length mismatch. -/
theorem C4_constantTimeEquals_correct (a b : Option String) :
    (constantTimeEquals a b = true ↔
      (normStr a).length = (normStr b).length ∧
        ∀ i < max (normStr a).length (normStr b).length,
          codeAt (normStr a) i = codeAt (normStr b) i) ∧
    (normStr a = normStr b → constantTimeEquals a b = true) ∧
    ((normStr a).length ≠ (normStr b).length → constantTimeEquals a b = false) := by
  refine ⟨constantTimeEquals_true_iff a b, ?_, ?_⟩
  · intro h
    rw [constantTimeEquals_true_iff, h]
    exact ⟨rfl, fun i _ => rfl⟩
  · intro h
    cases hct : constantTimeEquals a b with
    | false => rfl
    | true => exact absurd ((constantTimeEquals_true_iff a b).mp hct).1 h

/-- Witness for C4 at concrete inputs: equal strings (and `none` treated as
the empty string) compare true, a length mismatch compares false. -/
theorem C4_constantTimeEquals_correct_witness :
    constantTimeEquals (some "ab") (some "ab") = true ∧
      constantTimeEquals none (some "x") = false :=
  ⟨(C4_constantTimeEquals_correct (some "ab") (some "ab")).2.1 rfl,
   (C4_constantTimeEquals_correct none (some "x")).2.2 (by decide)⟩

/-- External primitives used by the source but implemented outside this
repository: Node's `crypto.createHmac("sha256", secret).update(m).digest("hex")`
(a function of the secret and the message) and JavaScript's `Number(string)`
conversion, where `none` stands for `NaN` (and for the non-finite values,
which the middleware treats the same way: rejection). -/
structure JsPrims where
  hmacSha256Hex : String → String → String
  jsNumber : String → Option Int

/-- The configuration captured by the closures returned from
`csrfProtection`: the validated secret, the two validated field names and
the validated ttl (milliseconds). -/
structure Config where
  secret : String
  tokenField : String
  timeField : String
  ttl : Int

/-- The request shape consumed by the middleware: `req.method`, `req.ip`,
`req.headers["user-agent"]` and `req.body` (absent body modelled as `none`,
a present body as an association list of string fields). -/
structure Request where
  method : String
  ip : Option String
  userAgent : Option String
  body : Option (List (String × String))

/-- The error produced by `makeCsrfError`: an `Error` with a `message` and
a `code` property. -/
structure CsrfError where
  message : String
  code : String
deriving DecidableEq

/-- `makeCsrfError(message)` from the source. -/
def makeCsrfError (message : String) : CsrfError :=
  { message := message, code := "EBADCSRFTOKEN" }

/-- `String.prototype.toUpperCase` (ASCII fragment, which covers the HTTP
method strings the middleware compares against). -/
def jsToUpperCase (s : String) : String := ⟨s.data.map Char.toUpper⟩

/-- `getUserIdentifier(req)`: `(req.ip || "") + (req.headers["user-agent"] || "")`. -/
def getUserIdentifier (req : Request) : String :=
  (req.ip.getD "") ++ (req.userAgent.getD "")

/-- `generateToken(userIdentifier, timestamp)`: HMAC-SHA-256 of
`userIdentifier + timestamp` keyed by the secret, hex output. -/
def generateToken (P : JsPrims) (cfg : Config) (userIdentifier timestamp : String) : String :=
  P.hmacSha256Hex cfg.secret (userIdentifier ++ timestamp)

/-- `req.body?.[name]`: `none` when the body is absent or lacks the field. -/
def bodyField (req : Request) (name : String) : Option String :=
  match req.body with
  | none => none
  | some b => b.lookup name

/-- JavaScript falsiness of a body field value: absent or the empty string. -/
def jsFalsy (v : Option String) : Bool :=
  match v with
  | none => true
  | some s => s == ""

/-- `middleware(req, res, next)` from the source, in the source's
continuation-passing style: every branch returns one call of `next`,
either with no argument (modelled `none`) or with the constructed error.
`now` stands for the single `Date.now()` read. -/
def middleware {α : Type} (P : JsPrims) (cfg : Config) (req : Request) (now : Int)
    (next : Option CsrfError → α) : α :=
  let method := jsToUpperCase req.method
  if ["GET", "HEAD", "OPTIONS"].contains method then next none
  else
    let token := bodyField req cfg.tokenField
    let time := bodyField req cfg.timeField
    if jsFalsy token || jsFalsy time then
      next (some (makeCsrfError "Missing CSRF token or timestamp"))
    else
      let expected := generateToken P cfg (getUserIdentifier req) (normStr time)
      let age := (P.jsNumber (normStr time)).map (fun t => now - t)
      if !constantTimeEquals token (some expected) then
        next (some (makeCsrfError "Invalid CSRF token"))
      else
        match age with
        | none => next (some (makeCsrfError "Expired CSRF token"))
        | some a =>
          if a < 0 || a > cfg.ttl then next (some (makeCsrfError "Expired CSRF token"))
          else next none

/-- The middleware's decision, extracted by passing the identity
continuation: `none` is Accepted, `some e` is Rejected with error `e`. -/
def runMiddleware (P : JsPrims) (cfg : Config) (req : Request) (now : Int) :
    Option CsrfError :=
  middleware P cfg req now (fun e => e)

/-- `csrfTokenHtml(req)` from the source:
`time = Date.now().toString()`, `token = generateToken(getUserIdentifier(req), time)`,
serialised into two hidden input fields. -/
def csrfTokenHtml (P : JsPrims) (cfg : Config) (req : Request) (now : Int) : String :=
  let time := toString now
  let userId := getUserIdentifier req
  let token := generateToken P cfg userId time
  "\n      <input type=\"hidden\" name=\"" ++ cfg.tokenField ++ "\" value=\"" ++ token ++
    "\" />\n      <input type=\"hidden\" name=\"" ++ cfg.timeField ++ "\" value=\"" ++ time ++
    "\" />\n    "

/-- The {token, time} pair embedded in the markup that `csrfTokenHtml`
produces for a request at issue time `now` (the values of the two hidden
inputs). -/
def csrfTokenPair (P : JsPrims) (cfg : Config) (req : Request) (now : Int) : String × String :=
  let time := toString now
  let userId := getUserIdentifier req
  let token := generateToken P cfg userId time
  (token, time)

theorem toDigitsCore_length_le (b f : Nat) :
    ∀ (n : Nat) (l : List Char), l.length ≤ (Nat.toDigitsCore b f n l).length := by
  induction f with
  | zero => intro n l; simp [Nat.toDigitsCore]
  | succ f ih =>
    intro n l
    simp only [Nat.toDigitsCore]
    split
    · simp
    · exact le_trans (by simp) (ih (n / b) (Nat.digitChar (n % b) :: l))

theorem toDigitsCore_length_pos (b f n : Nat) (l : List Char) :
    l.length + 1 ≤ (Nat.toDigitsCore b (f + 1) n l).length := by
  simp only [Nat.toDigitsCore]
  split
  · simp
  · exact le_trans (by simp) (toDigitsCore_length_le b f (n / b) (Nat.digitChar (n % b) :: l))

theorem int_toString_length_pos (T : Int) : 0 < (toString T).length := by
  cases T with
  | ofNat n =>
    show 0 < (Nat.toDigits 10 n).asString.length
    have h := toDigitsCore_length_pos 10 n n []
    simpa [Nat.toDigits, List.asString, String.length] using h
  | negSucc n =>
    show 0 < ("-" ++ (Nat.succ n).repr).length
    rw [String.length_append]
    have h : 0 < "-".length := by decide
    omega

theorem int_toString_ne_empty (T : Int) : toString T ≠ "" := by
  intro h
  have h1 := int_toString_length_pos T
  rw [h] at h1
  exact Nat.lt_irrefl 0 h1

/-- Reduction of the middleware on an unsafe-method request whose two body
fields are present and non-empty: the decision is the signature check
followed by the freshness check. -/
theorem runMiddleware_checks (P : JsPrims) (cfg : Config) (req : Request) (now : Int)
    (tok ts : String)
    (hm : (["GET", "HEAD", "OPTIONS"].contains (jsToUpperCase req.method)) = false)
    (htok : bodyField req cfg.tokenField = some tok) (htokne : tok ≠ "")
    (hts : bodyField req cfg.timeField = some ts) (htsne : ts ≠ "") :
    runMiddleware P cfg req now =
      if !constantTimeEquals (some tok)
          (some (generateToken P cfg (getUserIdentifier req) ts)) then
        some (makeCsrfError "Invalid CSRF token")
      else
        match (P.jsNumber ts).map (fun t => now - t) with
        | none => some (makeCsrfError "Expired CSRF token")
        | some a =>
          if a < 0 || a > cfg.ttl then some (makeCsrfError "Expired CSRF token")
          else none := by
  unfold runMiddleware middleware
  dsimp only
  rw [hm]
  simp only [Bool.false_eq_true, if_false]
  rw [htok, hts]
  have hfalsy : (jsFalsy (some tok) || jsFalsy (some ts)) = false := by
    simp [jsFalsy, htokne, htsne]
  rw [hfalsy]
  simp only [Bool.false_eq_true, if_false]
  rfl

/-- Shared acceptance lemma: an unsafe-method request whose body carries
verbatim the {token, time} pair rendered for it at issue time `T` is
accepted at any `now` with `0 ≤ now - T ≤ ttl`, provided `Number` reads the
rendered decimal timestamp back as `T` and the HMAC hex output is
non-empty. -/
theorem runMiddleware_accepts_pair (P : JsPrims) (cfg : Config) (req : Request) (T now : Int)
    (hm : (["GET", "HEAD", "OPTIONS"].contains (jsToUpperCase req.method)) = false)
    (htok : bodyField req cfg.tokenField = some (csrfTokenPair P cfg req T).1)
    (htokne : (csrfTokenPair P cfg req T).1 ≠ "")
    (hts : bodyField req cfg.timeField = some (csrfTokenPair P cfg req T).2)
    (hparse : P.jsNumber (toString T) = some T)
    (h0 : 0 ≤ now - T) (h1 : now - T ≤ cfg.ttl) :
    runMiddleware P cfg req now = none := by
  have hpair2 : (csrfTokenPair P cfg req T).2 = toString T := rfl
  have hne2 : (csrfTokenPair P cfg req T).2 ≠ "" := by
    rw [hpair2]; exact int_toString_ne_empty T
  rw [runMiddleware_checks P cfg req now _ _ hm htok htokne hts hne2]
  have hct : constantTimeEquals (some (csrfTokenPair P cfg req T).1)
      (some (generateToken P cfg (getUserIdentifier req) (csrfTokenPair P cfg req T).2)) =
        true := by
    rw [constantTimeEquals_eq_iff]
    rfl
  rw [hct]
  simp only [Bool.not_true, Bool.false_eq_true, if_false]
  rw [hpair2, hparse]
  have hc : (now - T < 0 || now - T > cfg.ttl) = false := by
    simp only [Bool.or_eq_false_iff, decide_eq_false_iff_not]
    omega
  show (if (now - T < 0 || now - T > cfg.ttl) = true then some (makeCsrfError "Expired CSRF token")
    else none) = none
  rw [hc]
  simp

/-- C10: the middleware factors through a pure decision: one call of
`middleware` always invokes the continuation `next` exactly once and never
throws — with no argument (here `none`) on every Accepted path, and with
exactly the constructed error on every Rejected path.  `runMiddleware` is a
pure function of the request and the clock alone, so no state is read or
written across invocations. -/
theorem C10_middleware_invokes_next_once {α : Type} (P : JsPrims) (cfg : Config)
    (req : Request) (now : Int) (next : Option CsrfError → α) :
    middleware P cfg req now next = next (runMiddleware P cfg req now) := by
  unfold runMiddleware middleware
  dsimp only
  split
  · rfl
  · split
    · rfl
    · split
      · rfl
      · split
        · rfl
        · split
          · rfl
          · rfl

/-- Shared rejection lemma: on an unsafe-method request with both fields
present, a presented token different from the recomputed expected token is
rejected as an invalid signature, whatever the presented time string and
the clock. -/
theorem runMiddleware_rejects_invalid (P : JsPrims) (cfg : Config) (req : Request) (now : Int)
    (tok ts : String)
    (hm : (["GET", "HEAD", "OPTIONS"].contains (jsToUpperCase req.method)) = false)
    (htok : bodyField req cfg.tokenField = some tok) (htokne : tok ≠ "")
    (hts : bodyField req cfg.timeField = some ts) (htsne : ts ≠ "")
    (hne : tok ≠ generateToken P cfg (getUserIdentifier req) ts) :
    runMiddleware P cfg req now = some (makeCsrfError "Invalid CSRF token") := by
  rw [runMiddleware_checks P cfg req now tok ts hm htok htokne hts htsne]
  have hct : constantTimeEquals (some tok)
      (some (generateToken P cfg (getUserIdentifier req) ts)) = false := by
    cases h : constantTimeEquals (some tok)
        (some (generateToken P cfg (getUserIdentifier req) ts)) with
    | false => rfl
    | true => exact absurd ((constantTimeEquals_eq_iff _ _).mp h) hne
  rw [hct]
  rfl

/-- Appending to a fixed left string is injective. -/
theorem string_append_right_injective (p : String) :
    Function.Injective (fun s => p ++ s) := by
  intro a b h
  have hd := congrArg String.data h
  rw [String.data_append, String.data_append] at hd
  exact String.ext (List.append_right_injective p.data hd)

/-- Appending a fixed right string is injective. -/
theorem string_append_left_injective (p : String) :
    Function.Injective (fun s => s ++ p) := by
  intro a b h
  have hd := congrArg String.data h
  rw [String.data_append, String.data_append] at hd
  exact String.ext (List.append_left_injective p.data hd)

/-- Concrete primitives used by the closed witness statements: an injective
stand-in for the HMAC (prepend a marker to the message) and a `Number`
stand-in defined on the timestamp strings the witnesses use. -/
def demoPrims : JsPrims :=
  { hmacSha256Hex := fun _ m => "h" ++ m,
    jsNumber := fun s => if s = "5" then some 5 else none }

/-- A valid demo configuration with the default field names. -/
def demoConfig : Config :=
  { secret := "supersecretkey123456789012345678", tokenField := "_csrf_token",
    timeField := "_csrf_time", ttl := 3600000 }

/-- C1: round-trip — for every request with an unsafe method and any
address/user-agent, placing the {token, time} pair rendered at issue time
`T` verbatim into the request body under the configured field names makes
validation accept at every `now` with `0 ≤ now - T ≤ ttl` (in particular at
`now = T`), provided `Number` reads the rendered decimal timestamp back as
`T` and the HMAC output is a non-empty string. -/
theorem C1_round_trip (P : JsPrims) (cfg : Config) (req : Request) (T now : Int)
    (hm : (["GET", "HEAD", "OPTIONS"].contains (jsToUpperCase req.method)) = false)
    (htok : bodyField req cfg.tokenField = some (csrfTokenPair P cfg req T).1)
    (htokne : (csrfTokenPair P cfg req T).1 ≠ "")
    (hts : bodyField req cfg.timeField = some (csrfTokenPair P cfg req T).2)
    (hparse : P.jsNumber (toString T) = some T)
    (h0 : 0 ≤ now - T) (h1 : now - T ≤ cfg.ttl) :
    runMiddleware P cfg req now = none :=
  runMiddleware_accepts_pair P cfg req T now hm htok htokne hts hparse h0 h1

/-- Witness for C1: a POST request carrying the pair rendered at time 5 is
accepted when validated at time 5. -/
theorem C1_round_trip_witness :
    runMiddleware demoPrims demoConfig
      ⟨"POST", some "1", some "a", some [("_csrf_token", "h1a5"), ("_csrf_time", "5")]⟩ 5 =
      none :=
  C1_round_trip demoPrims demoConfig
    ⟨"POST", some "1", some "a", some [("_csrf_token", "h1a5"), ("_csrf_time", "5")]⟩ 5 5
    (by decide) (by decide) (by decide) (by decide) (by decide) (by decide) (by decide)

/-- C2: ordering of checks — on an unsafe-method request with both fields
present (non-empty) whose presented token differs from the token recomputed
from the freshly derived identity and the presented time string, validation
rejects with "Invalid CSRF token", for every presented time string
(non-numeric, future or stale alike) and every clock value: the signature
check precedes the freshness check. -/
theorem C2_invalid_signature_first (P : JsPrims) (cfg : Config) (req : Request) (now : Int)
    (tok ts : String)
    (hm : (["GET", "HEAD", "OPTIONS"].contains (jsToUpperCase req.method)) = false)
    (htok : bodyField req cfg.tokenField = some tok) (htokne : tok ≠ "")
    (hts : bodyField req cfg.timeField = some ts) (htsne : ts ≠ "")
    (hne : tok ≠ generateToken P cfg (getUserIdentifier req) ts) :
    runMiddleware P cfg req now = some (makeCsrfError "Invalid CSRF token") :=
  runMiddleware_rejects_invalid P cfg req now tok ts hm htok htokne hts htsne hne

/-- Witness for C2: a forged token with a non-numeric timestamp is rejected
as an invalid signature, not as expired. -/
theorem C2_invalid_signature_first_witness :
    runMiddleware demoPrims demoConfig
      ⟨"POST", some "1", some "a", some [("_csrf_token", "bad"), ("_csrf_time", "zzz")]⟩ 99 =
      some (makeCsrfError "Invalid CSRF token") :=
  C2_invalid_signature_first demoPrims demoConfig
    ⟨"POST", some "1", some "a", some [("_csrf_token", "bad"), ("_csrf_time", "zzz")]⟩ 99
    "bad" "zzz" (by decide) (by decide) (by decide) (by decide) (by decide) (by decide)

/-- C3: freshness — on an unsafe-method request with both fields present
whose token equals the recomputed expected token, validation rejects with
"Expired CSRF token" exactly when the presented time does not parse to a
(finite) number, or its age `now - t` is negative, or the age exceeds the
ttl; otherwise it accepts. -/
theorem C3_freshness (P : JsPrims) (cfg : Config) (req : Request) (now : Int)
    (tok ts : String)
    (hm : (["GET", "HEAD", "OPTIONS"].contains (jsToUpperCase req.method)) = false)
    (htok : bodyField req cfg.tokenField = some tok) (htokne : tok ≠ "")
    (hts : bodyField req cfg.timeField = some ts) (htsne : ts ≠ "")
    (hsig : tok = generateToken P cfg (getUserIdentifier req) ts) :
    (runMiddleware P cfg req now = some (makeCsrfError "Expired CSRF token") ↔
      P.jsNumber ts = none ∨
        ∃ t, P.jsNumber ts = some t ∧ (now - t < 0 ∨ cfg.ttl < now - t)) ∧
    (runMiddleware P cfg req now = none ↔
      ∃ t, P.jsNumber ts = some t ∧ 0 ≤ now - t ∧ now - t ≤ cfg.ttl) := by
  rw [runMiddleware_checks P cfg req now tok ts hm htok htokne hts htsne]
  have hct : constantTimeEquals (some tok)
      (some (generateToken P cfg (getUserIdentifier req) ts)) = true :=
    (constantTimeEquals_eq_iff _ _).mpr hsig
  rw [hct]
  simp only [Bool.not_true, Bool.false_eq_true, if_false]
  cases hj : P.jsNumber ts with
  | none =>
    constructor
    · simp [hj]
    · simp [hj]
  | some t =>
    show ((if (now - t < 0 || now - t > cfg.ttl) = true
        then some (makeCsrfError "Expired CSRF token") else none) =
          some (makeCsrfError "Expired CSRF token") ↔ _) ∧
      ((if (now - t < 0 || now - t > cfg.ttl) = true
        then some (makeCsrfError "Expired CSRF token") else none) = none ↔ _)
    have hiff : ((now - t < 0 || now - t > cfg.ttl) = true) ↔
        (now - t < 0 ∨ cfg.ttl < now - t) := by simp
    constructor
    · constructor
      · intro h
        split at h
        case isTrue hcond => exact Or.inr ⟨t, rfl, hiff.mp hcond⟩
        case isFalse hcond => exact absurd h (by simp)
      · rintro (h | ⟨t', ht', hcond⟩)
        · exact absurd h (by simp)
        · injection ht' with e
          subst e
          rw [if_pos (hiff.mpr hcond)]
    · constructor
      · intro h
        split at h
        case isTrue hcond => exact absurd h (by simp)
        case isFalse hcond =>
          have hfalse : ¬ (now - t < 0 ∨ cfg.ttl < now - t) := fun hc => hcond (hiff.mpr hc)
          rcases not_or.mp hfalse with ⟨h1, h2⟩
          exact ⟨t, rfl, by omega⟩
      · rintro ⟨t', ht', h0, h1⟩
        injection ht' with e
        subst e
        have hneg : ¬ ((now - t < 0 || now - t > cfg.ttl) = true) := by
          intro hcond
          rcases hiff.mp hcond with h | h <;> omega
        rw [if_neg hneg]

/-- Witness for C3: a correctly signed pair with timestamp 5 is accepted at
time 5 and not reported expired, matching the right-hand sides. -/
theorem C3_freshness_witness :
    (runMiddleware demoPrims demoConfig
        ⟨"POST", some "1", some "a", some [("_csrf_token", "h1a5"), ("_csrf_time", "5")]⟩ 5 =
        some (makeCsrfError "Expired CSRF token") ↔
      demoPrims.jsNumber "5" = none ∨
        ∃ t, demoPrims.jsNumber "5" = some t ∧ ((5 : Int) - t < 0 ∨ demoConfig.ttl < 5 - t)) ∧
    (runMiddleware demoPrims demoConfig
        ⟨"POST", some "1", some "a", some [("_csrf_token", "h1a5"), ("_csrf_time", "5")]⟩ 5 =
        none ↔
      ∃ t, demoPrims.jsNumber "5" = some t ∧ 0 ≤ (5 : Int) - t ∧ 5 - t ≤ demoConfig.ttl) :=
  C3_freshness demoPrims demoConfig
    ⟨"POST", some "1", some "a", some [("_csrf_token", "h1a5"), ("_csrf_time", "5")]⟩ 5
    "h1a5" "5" (by decide) (by decide) (by decide) (by decide) (by decide) (by decide)

/-- C6: error surface — every rejection carries code `EBADCSRFTOKEN` and one
of the three documented messages; and on an unsafe-method request with an
absent or empty token or time field, the outcome is exactly the
missing-fields rejection. -/
theorem C6_error_surface (P : JsPrims) (cfg : Config) (req : Request) (now : Int) :
    (∀ e, runMiddleware P cfg req now = some e →
      e.code = "EBADCSRFTOKEN" ∧
        (e.message = "Missing CSRF token or timestamp" ∨ e.message = "Invalid CSRF token" ∨
          e.message = "Expired CSRF token")) ∧
    ((["GET", "HEAD", "OPTIONS"].contains (jsToUpperCase req.method)) = false →
      (jsFalsy (bodyField req cfg.tokenField) || jsFalsy (bodyField req cfg.timeField)) = true →
      runMiddleware P cfg req now = some (makeCsrfError "Missing CSRF token or timestamp")) := by
  constructor
  · intro e he
    unfold runMiddleware middleware at he
    dsimp only at he
    split at he
    · exact absurd he (by simp)
    · split at he
      · cases he; exact ⟨rfl, Or.inl rfl⟩
      · split at he
        · cases he; exact ⟨rfl, Or.inr (Or.inl rfl)⟩
        · split at he
          · cases he; exact ⟨rfl, Or.inr (Or.inr rfl)⟩
          · split at he
            · cases he; exact ⟨rfl, Or.inr (Or.inr rfl)⟩
            · exact absurd he (by simp)
  · intro h1 h2
    unfold runMiddleware middleware
    dsimp only
    rw [h1]
    simp only [Bool.false_eq_true, if_false]
    rw [h2]
    rfl

/-- Witness for C6: a POST request with an empty body is rejected with the
missing-fields error, which carries the documented code and message. -/
theorem C6_error_surface_witness :
    ((makeCsrfError "Missing CSRF token or timestamp").code = "EBADCSRFTOKEN" ∧
      ((makeCsrfError "Missing CSRF token or timestamp").message =
          "Missing CSRF token or timestamp" ∨
        (makeCsrfError "Missing CSRF token or timestamp").message = "Invalid CSRF token" ∨
        (makeCsrfError "Missing CSRF token or timestamp").message = "Expired CSRF token")) ∧
    runMiddleware demoPrims demoConfig ⟨"POST", some "1", some "a", some []⟩ 0 =
      some (makeCsrfError "Missing CSRF token or timestamp") :=
  ⟨(C6_error_surface demoPrims demoConfig ⟨"POST", some "1", some "a", some []⟩ 0).1
      (makeCsrfError "Missing CSRF token or timestamp") (by decide),
   (C6_error_surface demoPrims demoConfig ⟨"POST", some "1", some "a", some []⟩ 0).2
      (by decide) (by decide)⟩

/-- C7: for every configuration and every request whose method compares
case-insensitively equal to GET, HEAD or OPTIONS, the middleware accepts
with no further checks, whatever the body holds (including no body). -/
theorem C7_safe_methods_bypass (P : JsPrims) (cfg : Config) (req : Request) (now : Int)
    (h : jsToUpperCase req.method = "GET" ∨ jsToUpperCase req.method = "HEAD" ∨
      jsToUpperCase req.method = "OPTIONS") :
    runMiddleware P cfg req now = none := by
  unfold runMiddleware middleware
  have hc : ["GET", "HEAD", "OPTIONS"].contains (jsToUpperCase req.method) = true := by
    rcases h with h | h | h <;> simp [h]
  dsimp only
  rw [hc]
  simp

/-- Witness for C7: a lower-case `get` request with an empty body is
accepted. -/
theorem C7_safe_methods_bypass_witness :
    runMiddleware ⟨fun _ m => m, fun _ => none⟩ ⟨"s", "_csrf_token", "_csrf_time", 3600000⟩
      ⟨"get", none, none, none⟩ 0 = none :=
  C7_safe_methods_bypass _ _ _ _ (by decide)

/-- C8: identity sensitivity — two requests that differ only in source
address (or only in user-agent) derive different identity strings, hence —
whenever the keyed hash does not collide, which is the overwhelming-
probability guarantee of HMAC-SHA-256 (modelled here as injectivity of the
hash on messages) — their tokens at any common timestamp differ, and the
token issued for request A is rejected as an invalid signature when
presented on request B with the different address. -/
theorem C8_identity_sensitivity (P : JsPrims) (cfg : Config)
    (ipA ipB ua ip uaA uaB mA mB : String) (bA bB : Option (List (String × String)))
    (t : String) (now : Int)
    (hip : ipA ≠ ipB) (hua : uaA ≠ uaB)
    (hinj : Function.Injective (P.hmacSha256Hex cfg.secret))
    (hm : (["GET", "HEAD", "OPTIONS"].contains (jsToUpperCase mB)) = false)
    (htok : bodyField ⟨mB, some ipB, some ua, bB⟩ cfg.tokenField =
      some (generateToken P cfg (getUserIdentifier ⟨mA, some ipA, some ua, bA⟩) t))
    (htokne : generateToken P cfg (getUserIdentifier ⟨mA, some ipA, some ua, bA⟩) t ≠ "")
    (hts : bodyField ⟨mB, some ipB, some ua, bB⟩ cfg.timeField = some t) (htsne : t ≠ "") :
    getUserIdentifier ⟨mA, some ipA, some ua, bA⟩ ≠
        getUserIdentifier ⟨mB, some ipB, some ua, bB⟩ ∧
      generateToken P cfg (getUserIdentifier ⟨mA, some ipA, some ua, bA⟩) t ≠
        generateToken P cfg (getUserIdentifier ⟨mB, some ipB, some ua, bB⟩) t ∧
      getUserIdentifier ⟨mA, some ip, some uaA, bA⟩ ≠
        getUserIdentifier ⟨mA, some ip, some uaB, bA⟩ ∧
      generateToken P cfg (getUserIdentifier ⟨mA, some ip, some uaA, bA⟩) t ≠
        generateToken P cfg (getUserIdentifier ⟨mA, some ip, some uaB, bA⟩) t ∧
      runMiddleware P cfg ⟨mB, some ipB, some ua, bB⟩ now =
        some (makeCsrfError "Invalid CSRF token") := by
  have hidA : getUserIdentifier ⟨mA, some ipA, some ua, bA⟩ = ipA ++ ua := rfl
  have hidB : getUserIdentifier ⟨mB, some ipB, some ua, bB⟩ = ipB ++ ua := rfl
  have hid : getUserIdentifier ⟨mA, some ipA, some ua, bA⟩ ≠
      getUserIdentifier ⟨mB, some ipB, some ua, bB⟩ := by
    rw [hidA, hidB]
    intro h
    exact hip (string_append_left_injective ua h)
  have htokdiff : generateToken P cfg (getUserIdentifier ⟨mA, some ipA, some ua, bA⟩) t ≠
      generateToken P cfg (getUserIdentifier ⟨mB, some ipB, some ua, bB⟩) t := by
    intro h
    exact hid (string_append_left_injective t (hinj h))
  have hidua : getUserIdentifier ⟨mA, some ip, some uaA, bA⟩ ≠
      getUserIdentifier ⟨mA, some ip, some uaB, bA⟩ := by
    intro h
    exact hua (string_append_right_injective ip h)
  refine ⟨hid, htokdiff, hidua, ?_, ?_⟩
  · intro h
    exact hidua (string_append_left_injective t (hinj h))
  · exact runMiddleware_rejects_invalid P cfg ⟨mB, some ipB, some ua, bB⟩ now _ t hm htok
      htokne hts htsne htokdiff

/-- Witness for C8: addresses "1" versus "2" under the same user-agent
yield different identities and tokens, and the token for address "1" is
rejected on the request from address "2". -/
theorem C8_identity_sensitivity_witness :
    getUserIdentifier ⟨"POST", some "1", some "a", none⟩ ≠
        getUserIdentifier ⟨"POST", some "2", some "a",
          some [("_csrf_token", "h1a5"), ("_csrf_time", "5")]⟩ ∧
      generateToken demoPrims demoConfig
          (getUserIdentifier ⟨"POST", some "1", some "a", none⟩) "5" ≠
        generateToken demoPrims demoConfig
          (getUserIdentifier ⟨"POST", some "2", some "a",
            some [("_csrf_token", "h1a5"), ("_csrf_time", "5")]⟩) "5" ∧
      getUserIdentifier ⟨"POST", some "1", some "x", none⟩ ≠
        getUserIdentifier ⟨"POST", some "1", some "y", none⟩ ∧
      generateToken demoPrims demoConfig
          (getUserIdentifier ⟨"POST", some "1", some "x", none⟩) "5" ≠
        generateToken demoPrims demoConfig
          (getUserIdentifier ⟨"POST", some "1", some "y", none⟩) "5" ∧
      runMiddleware demoPrims demoConfig
          ⟨"POST", some "2", some "a", some [("_csrf_token", "h1a5"), ("_csrf_time", "5")]⟩ 0 =
        some (makeCsrfError "Invalid CSRF token") :=
  C8_identity_sensitivity demoPrims demoConfig "1" "2" "a" "1" "x" "y" "POST" "POST"
    none (some [("_csrf_token", "h1a5"), ("_csrf_time", "5")]) "5" 0
    (by decide) (by decide) (string_append_right_injective "h")
    (by decide) (by decide) (by decide) (by decide) (by decide)

/-- C9: the identity derivation is not injective — the requests with
(address, user-agent) = ("ab", "c") and ("a", "bc") share the identity
string "abc", therefore receive identical tokens at every timestamp, and a
{token, time} pair rendered for the first validates successfully on the
second. -/
theorem C9_identity_collision (P : JsPrims) (cfg : Config)
    (mA mB : String) (bA bB : Option (List (String × String))) (t : String) (T now : Int)
    (hm : (["GET", "HEAD", "OPTIONS"].contains (jsToUpperCase mB)) = false)
    (htok : bodyField ⟨mB, some "a", some "bc", bB⟩ cfg.tokenField =
      some (csrfTokenPair P cfg ⟨mA, some "ab", some "c", bA⟩ T).1)
    (htokne : (csrfTokenPair P cfg ⟨mA, some "ab", some "c", bA⟩ T).1 ≠ "")
    (hts : bodyField ⟨mB, some "a", some "bc", bB⟩ cfg.timeField =
      some (csrfTokenPair P cfg ⟨mA, some "ab", some "c", bA⟩ T).2)
    (hparse : P.jsNumber (toString T) = some T)
    (h0 : 0 ≤ now - T) (h1 : now - T ≤ cfg.ttl) :
    getUserIdentifier ⟨mA, some "ab", some "c", bA⟩ =
        getUserIdentifier ⟨mB, some "a", some "bc", bB⟩ ∧
      generateToken P cfg (getUserIdentifier ⟨mA, some "ab", some "c", bA⟩) t =
        generateToken P cfg (getUserIdentifier ⟨mB, some "a", some "bc", bB⟩) t ∧
      runMiddleware P cfg ⟨mB, some "a", some "bc", bB⟩ now = none := by
  have hid : getUserIdentifier ⟨mA, some "ab", some "c", bA⟩ =
      getUserIdentifier ⟨mB, some "a", some "bc", bB⟩ := by
    show (("ab" : String) ++ "c") = (("a" : String) ++ "bc")
    decide
  have hpair : csrfTokenPair P cfg ⟨mA, some "ab", some "c", bA⟩ T =
      csrfTokenPair P cfg ⟨mB, some "a", some "bc", bB⟩ T := by
    unfold csrfTokenPair generateToken
    rw [hid]
  refine ⟨hid, by rw [hid], ?_⟩
  rw [hpair] at htok htokne hts
  exact runMiddleware_accepts_pair P cfg ⟨mB, some "a", some "bc", bB⟩ T now hm htok htokne
    hts hparse h0 h1

/-- Witness for C9: the pair rendered at time 5 for (address "ab",
user-agent "c") is accepted on a POST from (address "a", user-agent "bc"). -/
theorem C9_identity_collision_witness :
    getUserIdentifier ⟨"POST", some "ab", some "c", none⟩ =
        getUserIdentifier ⟨"POST", some "a", some "bc",
          some [("_csrf_token", "habc5"), ("_csrf_time", "5")]⟩ ∧
      generateToken demoPrims demoConfig
          (getUserIdentifier ⟨"POST", some "ab", some "c", none⟩) "5" =
        generateToken demoPrims demoConfig
          (getUserIdentifier ⟨"POST", some "a", some "bc",
            some [("_csrf_token", "habc5"), ("_csrf_time", "5")]⟩) "5" ∧
      runMiddleware demoPrims demoConfig
          ⟨"POST", some "a", some "bc", some [("_csrf_token", "habc5"), ("_csrf_time", "5")]⟩ 5 =
        none :=
  C9_identity_collision demoPrims demoConfig "POST" "POST" none
    (some [("_csrf_token", "habc5"), ("_csrf_time", "5")]) "5" 5 5
    (by decide) (by decide) (by decide) (by decide) (by decide) (by decide) (by decide)

/-- A JavaScript value as far as the constructor's validation observes it:
undefined, null, a string, a finite number (integers suffice for the
branching the validation performs), NaN, or an infinity. -/
inductive JsVal where
  | undef
  | nullv
  | str (s : String)
  | int (n : Int)
  | nan
  | inf
deriving DecidableEq

/-- The options object accepted by `csrfProtection`, for the validated
domain: an object whose `fieldNames` property, when present, is an object
carrying `token` and `time` properties (each an arbitrary value), and whose
`secret` and `ttl` are arbitrary values.  `none` models an absent property,
which the destructuring replaces with its default. -/
structure Options where
  secret : JsVal
  fieldNames : Option (JsVal × JsVal)
  ttl : Option JsVal

/-- The destructuring default `{ token: "_csrf_token", time: "_csrf_time" }`. -/
def defaultFieldNames : JsVal × JsVal := (.str "_csrf_token", .str "_csrf_time")

/-- The `fieldNames` value after the destructuring default is applied. -/
def effFieldNames (o : Options) : JsVal × JsVal := o.fieldNames.getD defaultFieldNames

/-- The `ttl` value after the destructuring default `3600_000` is applied. -/
def effTtl (o : Options) : JsVal := o.ttl.getD (.int 3600000)

/-- The character class of the field-name pattern `[a-zA-Z0-9_-]`. -/
def isFieldNameChar (c : Char) : Bool := c.isAlphanum || c == '_' || c == '-'

/-- `/^[a-zA-Z0-9_-]+$/.test(s)`. -/
def fieldNamePatternTest (s : String) : Bool :=
  !s.data.isEmpty && s.data.all isFieldNameChar

/-- `validateFieldName(name, type)` from the source — throws unless the
value is a string fully matching the pattern; modelled as returning the
validated string. -/
def validateFieldName (name : JsVal) (ty : String) : Except String String :=
  match name with
  | .str s =>
    if fieldNamePatternTest s then .ok s
    else .error ("Invalid " ++ ty ++
      " field name: must contain only alphanumeric characters, underscores, or hyphens")
  | _ => .error ("Invalid " ++ ty ++
      " field name: must contain only alphanumeric characters, underscores, or hyphens")

/-- `csrfProtection(options)` from the source (the fully validating
variant): checks the secret (`!secret || typeof secret !== "string" ||
secret.length < 32`), both field names, their distinctness and the ttl
(`typeof ttl !== "number" || ttl <= 0 || !Number.isFinite(ttl)`), and on
success returns the configuration captured by the `middleware` and
`csrfTokenHtml` closures it hands back. -/
def csrfProtection (o : Options) : Except String Config :=
  match o.secret with
  | .str s =>
    if s = "" ∨ s.length < 32 then .error "CSRF secret must be at least 32 characters long"
    else
      match validateFieldName (effFieldNames o).1 "token" with
      | .error e => .error e
      | .ok ftoken =>
        match validateFieldName (effFieldNames o).2 "time" with
        | .error e => .error e
        | .ok ftime =>
          if (effFieldNames o).1 = (effFieldNames o).2 then
            .error "Token and time field names must be different"
          else
            match effTtl o with
            | .int n =>
              if n ≤ 0 then .error "ttl must be a positive finite number"
              else .ok { secret := s, tokenField := ftoken, timeField := ftime, ttl := n }
            | _ => .error "ttl must be a positive finite number"
  | _ => .error "CSRF secret must be at least 32 characters long"

theorem validateFieldName_ok_iff (v : JsVal) (ty r : String) :
    validateFieldName v ty = .ok r ↔ v = .str r ∧ fieldNamePatternTest r = true := by
  cases v <;> simp [validateFieldName]
  case str s =>
    by_cases h : fieldNamePatternTest s = true
    · simp [h]
      intro he
      subst he
      exact h
    · simp [Bool.not_eq_true] at h
      simp [h]
      intro he
      subst he
      simp [h]

/-- C5: construction validation — `csrfProtection` succeeds (returning the
configuration captured by the two returned operations) exactly when the
secret is a string of length at least 32, both effective field names are
strings fully matching `[a-zA-Z0-9_-]+`, the two field names differ, and
the effective ttl is a positive finite number; in every other case it
raises a fatal configuration error. -/
theorem C5_construction_validation (o : Options) :
    (∃ c, csrfProtection o = .ok c) ↔
      ((∃ s, o.secret = JsVal.str s ∧ 32 ≤ s.length) ∧
        (∃ ft, (effFieldNames o).1 = JsVal.str ft ∧ fieldNamePatternTest ft = true) ∧
        (∃ fi, (effFieldNames o).2 = JsVal.str fi ∧ fieldNamePatternTest fi = true) ∧
        (effFieldNames o).1 ≠ (effFieldNames o).2 ∧
        (∃ n, effTtl o = JsVal.int n ∧ 0 < n)) := by
  constructor
  · rintro ⟨c, hc⟩
    unfold csrfProtection at hc
    cases hsec : o.secret with
    | str s =>
      rw [hsec] at hc
      dsimp only at hc
      by_cases hlen : s = "" ∨ s.length < 32
      · rw [if_pos hlen] at hc; exact absurd hc (by simp)
      · rw [if_neg hlen] at hc
        cases hft : validateFieldName (effFieldNames o).1 "token" with
        | error e => rw [hft] at hc; exact absurd hc (by simp)
        | ok ft =>
          rw [hft] at hc
          dsimp only at hc
          cases hfi : validateFieldName (effFieldNames o).2 "time" with
          | error e => rw [hfi] at hc; exact absurd hc (by simp)
          | ok fi =>
            rw [hfi] at hc
            dsimp only at hc
            by_cases hdup : (effFieldNames o).1 = (effFieldNames o).2
            · rw [if_pos hdup] at hc; exact absurd hc (by simp)
            · rw [if_neg hdup] at hc
              cases httl : effTtl o with
              | int n =>
                rw [httl] at hc
                dsimp only at hc
                by_cases hn : n ≤ 0
                · rw [if_pos hn] at hc; exact absurd hc (by simp)
                · have hs32 : 32 ≤ s.length := by
                    rcases not_or.mp hlen with ⟨_, h2⟩
                    omega
                  exact ⟨⟨s, rfl, hs32⟩,
                    ⟨ft, ((validateFieldName_ok_iff _ _ _).mp hft).1,
                      ((validateFieldName_ok_iff _ _ _).mp hft).2⟩,
                    ⟨fi, ((validateFieldName_ok_iff _ _ _).mp hfi).1,
                      ((validateFieldName_ok_iff _ _ _).mp hfi).2⟩,
                    hdup, ⟨n, rfl, by omega⟩⟩
              | undef => rw [httl] at hc; exact absurd hc (by simp)
              | nullv => rw [httl] at hc; exact absurd hc (by simp)
              | str s2 => rw [httl] at hc; exact absurd hc (by simp)
              | nan => rw [httl] at hc; exact absurd hc (by simp)
              | inf => rw [httl] at hc; exact absurd hc (by simp)
    | undef => rw [hsec] at hc; exact absurd hc (by simp)
    | nullv => rw [hsec] at hc; exact absurd hc (by simp)
    | int n => rw [hsec] at hc; exact absurd hc (by simp)
    | nan => rw [hsec] at hc; exact absurd hc (by simp)
    | inf => rw [hsec] at hc; exact absurd hc (by simp)
  · rintro ⟨⟨s, hsec, hlen⟩, ⟨ft, hft1, hft2⟩, ⟨fi, hfi1, hfi2⟩, hdup, ⟨n, httl, hn⟩⟩
    refine ⟨⟨s, ft, fi, n⟩, ?_⟩
    unfold csrfProtection
    rw [hsec]
    dsimp only
    have hcond : ¬ (s = "" ∨ s.length < 32) := by
      rintro (rfl | h)
      · simp at hlen
      · omega
    rw [if_neg hcond]
    rw [(validateFieldName_ok_iff (effFieldNames o).1 "token" ft).mpr ⟨hft1, hft2⟩]
    dsimp only
    rw [(validateFieldName_ok_iff (effFieldNames o).2 "time" fi).mpr ⟨hfi1, hfi2⟩]
    dsimp only
    rw [if_neg hdup]
    rw [httl]
    dsimp only
    rw [if_neg (by omega : ¬ n ≤ 0)]

/-- Witness for C5: a 32-character secret with the default field names and
ttl constructs successfully. -/
theorem C5_construction_validation_witness :
    ∃ c, csrfProtection ⟨.str "supersecretkey123456789012345678", none, none⟩ =
      .ok c :=
  (C5_construction_validation ⟨.str "supersecretkey123456789012345678", none, none⟩).mpr
    ⟨⟨"supersecretkey123456789012345678", rfl, by decide⟩,
      ⟨"_csrf_token", rfl, by decide⟩, ⟨"_csrf_time", rfl, by decide⟩,
      by decide, ⟨3600000, rfl, by decide⟩⟩

end MiniCsrf
